import Mathlib

/-!
Shallow embedding of the vivita-inventory valuation and transaction logic.

Each definition mirrors one Python function of the repository:
* `calculate_weighted_average_cost`  — src/app/utils/helpers.py 167-189
* `Helpers.calculate_total_value`    — src/app/utils/helpers.py 191-226
* `Analytics.calculate_total_value`  — src/app/analytics/analytics_manager.py 12-53
* `create_transaction`               — src/app/database/supabase_manager.py 191-246
* running-balance reconstruction     — src/app/main.py 477-519
* `get_top_selling_items`            — src/app/analytics/analytics_manager.py 146-200
* `get_stock_alerts` / dashboard     — src/app/analytics/analytics_manager.py 389-408,
                                       src/app/components/dashboard.py 70-105

Python `Decimal` arithmetic is embedded as `ℚ` (exact rational arithmetic);
integer quantities are embedded as `Int` so that negativity is expressible.
-/

namespace Vivita

/-- Item record (data model §3): the fields touched by the embedded logic.
`quantity` and `min_quantity` are integers, `unit_cost` is a decimal. -/
structure Item where
  id : String
  name : String
  quantity : Int
  min_quantity : Int
  unit_cost : ℚ
  last_ordered_at : String
  deriving Repr, DecidableEq

/-- Transaction record (data model §3): the fields used by valuation and the
transaction processor.  Also reused as the `transaction_data` dict passed to
`create_transaction` (same keys). -/
structure Transaction where
  item_id : String
  transaction_type : String
  quantity : Int
  unit_price : ℚ
  deriving Repr, DecidableEq

/-- helpers.calculate_weighted_average_cost: loop over `transactions`
accumulating `total_cost += quantity * unit_price` and
`total_quantity += quantity` for purchase rows only, then
`total_cost / total_quantity if total_quantity > 0 else 0`. -/
def calculate_weighted_average_cost (transactions : List Transaction) : ℚ :=
  let acc := transactions.foldl
    (fun (a : ℚ × ℚ) t =>
      if t.transaction_type = "purchase" then
        (a.1 + (t.quantity : ℚ) * t.unit_price, a.2 + (t.quantity : ℚ))
      else a)
    (0, 0)
  if 0 < acc.2 then acc.1 / acc.2 else 0

/-- `Σ quantity_i * unit_price_i` over purchase transactions (the spec's
`total_cost`). -/
def purchase_cost (transactions : List Transaction) : ℚ :=
  ((transactions.filter (fun t => t.transaction_type = "purchase")).map
    (fun t => (t.quantity : ℚ) * t.unit_price)).sum

/-- `Σ quantity_i` over purchase transactions (the spec's `total_quantity`). -/
def purchase_qty (transactions : List Transaction) : ℚ :=
  ((transactions.filter (fun t => t.transaction_type = "purchase")).map
    (fun t => (t.quantity : ℚ))).sum

namespace Helpers

/-- Per-item unit cost chosen by helpers.calculate_total_value:
`if transactions:` (non-empty) filter to the item's transactions and use the
weighted average cost when that sublist is non-empty, otherwise (and when the
whole list is empty, Python falsiness of `None`/`[]`) fall back to the item's
declared `unit_cost`. -/
def item_unit_cost (transactions : List Transaction) (item : Item) : ℚ :=
  if transactions.isEmpty then item.unit_cost
  else
    let item_transactions := transactions.filter (fun t => t.item_id = item.id)
    if item_transactions.isEmpty then item.unit_cost
    else calculate_weighted_average_cost item_transactions

/-- helpers.calculate_total_value: `total += quantity * unit_cost` over items. -/
def calculate_total_value (items : List Item) (transactions : List Transaction) : ℚ :=
  items.foldl (fun total item =>
    total + (item.quantity : ℚ) * item_unit_cost transactions item) 0

end Helpers

namespace Analytics

/-- Per-item value in analytics_manager.calculate_total_value.  The Python
groups transactions into a dict keyed by `item_id`; the group stored under
`item.id` is exactly the in-order sublist `transactions.filter (item_id = id)`
(and the key is absent iff that sublist is empty).  If the group is absent the
item contributes `quantity * unit_cost`; otherwise purchase rows are summed and
the item contributes `quantity * (total_cost / total_quantity)` when
`total_quantity > 0`, else `quantity * unit_cost`. -/
def item_value (transactions : List Transaction) (item : Item) : ℚ :=
  let item_transactions := transactions.filter (fun t => t.item_id = item.id)
  if item_transactions.isEmpty then (item.quantity : ℚ) * item.unit_cost
  else
    let acc := item_transactions.foldl
      (fun (a : ℚ × ℚ) t =>
        if t.transaction_type = "purchase" then
          (a.1 + (t.quantity : ℚ) * t.unit_price, a.2 + (t.quantity : ℚ))
        else a)
      (0, 0)
    if 0 < acc.2 then (item.quantity : ℚ) * (acc.1 / acc.2)
    else (item.quantity : ℚ) * item.unit_cost

/-- analytics_manager.calculate_total_value: `total_value += ...` over items. -/
def calculate_total_value (items : List Item) (transactions : List Transaction) : ℚ :=
  items.foldl (fun total item => total + item_value transactions item) 0

end Analytics

/-- The two distinct `ValueError` raises of `create_transaction`, kept apart
(the spec names them `NotFoundError` and `InsufficientStockError`). -/
inductive TxnError where
  | notFoundError
  | insufficientStockError
  deriving Repr, DecidableEq

/-- The in-store state `create_transaction` reads and writes: the items table
and the append-only transactions table. -/
structure DB where
  items : List Item
  transactions : List Transaction
  deriving Repr, DecidableEq

/-- supabase_manager.create_transaction lines 202-204:
`quantity_change = quantity; if transaction_type in ["sale","transfer_out","loss"]:
quantity_change = -quantity_change`. -/
def quantity_change_of (transaction_type : String) (quantity : Int) : Int :=
  if transaction_type ∈ ["sale", "transfer_out", "loss"] then -quantity else quantity

/-- supabase_manager.update_item restricted to the quantity patch issued by
`create_transaction`: replace the quantity of the row whose id matches. -/
def update_item_quantity (items : List Item) (item_id : String) (q : Int) : List Item :=
  items.map (fun i => if i.id = item_id then { i with quantity := q } else i)

/-- supabase_manager.create_transaction: look the item up; compute the signed
quantity change; raise (here: `Except.error`) if the new quantity is negative
— the raise precedes both writes, so nothing is persisted on failure; else
insert the transaction record and update the item quantity.  (Reference-number
generation and timestamps are string cosmetics with no effect on quantities
and are not modelled.) -/
def create_transaction (db : DB) (td : Transaction) :
    Except TxnError (DB × Transaction) :=
  match db.items.find? (fun i => i.id = td.item_id) with
  | none => .error .notFoundError
  | some item =>
    let new_quantity := item.quantity + quantity_change_of td.transaction_type td.quantity
    if new_quantity < 0 then .error .insufficientStockError
    else .ok
      ({ items := update_item_quantity db.items td.item_id new_quantity,
         transactions := db.transactions ++ [td] }, td)

/-- One caller-visible step: on success the store is the updated one, on a
raise the caller keeps the unchanged store. -/
def apply_step (db : DB) (td : Transaction) : DB :=
  match create_transaction db td with
  | .ok (db', _) => db'
  | .error _ => db

/-! ### Running-balance reconstruction (src/app/main.py 477-519) -/

/-- One step of the backward walk (`for t in reversed(item_trans)`):
purchase subtracts, sale re-adds, adjustment subtracts ("to get to previous
state"); every other transaction type is not touched by the loop. -/
def backward_step (current_balance : Int) (t : Transaction) : Int :=
  if t.transaction_type = "purchase" then current_balance - t.quantity
  else if t.transaction_type = "sale" then current_balance + t.quantity
  else if t.transaction_type = "adjustment" then current_balance - t.quantity
  else current_balance

/-- The reconstructed balance before the first transaction: the backward walk
over `reversed(item_trans)` started from the item's current quantity. -/
def initial_balance (item_quantity : Int) (item_trans : List Transaction) : Int :=
  item_trans.reverse.foldl backward_step item_quantity

/-- Forward delta of the forward pass: `quantity_change = t['quantity']`,
negated only for sales. -/
def forward_change (t : Transaction) : Int :=
  if t.transaction_type = "sale" then -t.quantity else t.quantity

/-- The running balance after the last transaction: forward pass
`running_balance += quantity_change` from the reconstructed initial balance.
(The displayed Balance column holds the successive intermediate values of
this fold.) -/
def final_running_balance (item_quantity : Int) (item_trans : List Transaction) : Int :=
  item_trans.foldl (fun running_balance t => running_balance + forward_change t)
    (initial_balance item_quantity item_trans)

/-! ### Top-selling items (src/app/analytics/analytics_manager.py 146-200) -/

/-- One output row of `get_top_selling_items`. -/
structure SalesEntry where
  name : String
  units_sold : Int
  revenue : ℚ
  deriving Repr, DecidableEq

/-- Accumulation of `sales_data[item_id]`: the loop adds `quantity` to
`units_sold` and `quantity * unit_price` to `revenue` for each sale row of
this item. -/
def sales_totals (transactions : List Transaction) (item_id : String) : Int × ℚ :=
  transactions.foldl
    (fun (a : Int × ℚ) t =>
      if t.transaction_type = "sale" ∧ t.item_id = item_id then
        (a.1 + t.quantity, a.2 + (t.quantity : ℚ) * t.unit_price)
      else a)
    (0, 0)

/-- `item_id in sales_data`: the dict has a key exactly for the item ids with
at least one sale transaction. -/
def has_sales (transactions : List Transaction) (item_id : String) : Bool :=
  transactions.any (fun t => t.transaction_type = "sale" && t.item_id = item_id)

/-- The `result` list before sorting: items (in their list order) that appear
in `sales_data`, joined with their accumulated sales numbers. -/
def top_selling_pre (transactions : List Transaction) (items : List Item) :
    List SalesEntry :=
  (items.filter (fun i => has_sales transactions i.id)).map
    (fun i => { name := i.name,
                units_sold := (sales_totals transactions i.id).1,
                revenue := (sales_totals transactions i.id).2 })

/-- The comparison of `result.sort(key=lambda x: x['revenue'], reverse=True)`:
`a` may come before `b` iff `b.revenue ≤ a.revenue`. -/
def revenue_ge (a b : SalesEntry) : Prop := b.revenue ≤ a.revenue

instance : DecidableRel revenue_ge :=
  fun a b => inferInstanceAs (Decidable (b.revenue ≤ a.revenue))

instance : IsTotal SalesEntry revenue_ge := ⟨fun a b => le_total b.revenue a.revenue⟩

instance : IsTrans SalesEntry revenue_ge :=
  ⟨fun _ _ _ h1 h2 => le_trans h2 h1⟩

/-- analytics_manager.get_top_selling_items given the fetched window of
transactions and the items table: build `result`, stable-sort it descending by
revenue (Python's Timsort is stable; `List.insertionSort` with the non-strict
comparison is the same stable ordering) and keep the first 5 (`result[:5]`). -/
def get_top_selling_items (transactions : List Transaction) (items : List Item) :
    List SalesEntry :=
  (List.insertionSort revenue_ge (top_selling_pre transactions items)).take 5

/-! ### Stock alerts (analytics_manager.py 389-408, dashboard.py 70-105)

`get_stock_alerts` builds plain Python dicts; the dashboard then reads keys
`quantity` / `min_quantity` from them.  To capture dict-key semantics the
alert records are embedded as association lists from key strings to values,
and a missing key (Python `KeyError`) surfaces as `none`. -/

/-- A Python dict value occurring in an alert record. -/
inductive DictVal where
  | s : String → DictVal
  | n : Int → DictVal
  deriving Repr, DecidableEq

/-- supabase_manager.get_low_stock_items: filter
`item["quantity"] <= item["min_quantity"]` (inclusive). -/
def get_low_stock_items (items : List Item) : List Item :=
  items.filter (fun i => i.quantity ≤ i.min_quantity)

/-- The alert dict appended per low-stock row by
analytics_manager.get_stock_alerts (exactly these keys). -/
def alert_entry (i : Item) : List (String × DictVal) :=
  [("id", .s i.id),
   ("name", .s i.name),
   ("current_quantity", .n i.quantity),
   ("min_quantity", .n i.min_quantity),
   ("shortage", .n (i.min_quantity - i.quantity)),
   ("last_ordered", .s i.last_ordered_at)]

/-- analytics_manager.get_stock_alerts: the low-stock rows (the DataFrame
round trip is the identity on the row list) mapped to alert dicts. -/
def get_stock_alerts (items : List Item) : List (List (String × DictVal)) :=
  (get_low_stock_items items).map alert_entry

/-- `d[k]` for an int-valued key: `none` models a `KeyError` (or a
non-numeric value where a number is required). -/
def dict_int (d : List (String × DictVal)) (k : String) : Option Int :=
  match d.lookup k with
  | some (.n v) => some v
  | _ => none

/-- The dashboard sort key
`(x['quantity'] / x['min_quantity']) if x['min_quantity'] > 0 else float('inf')`;
`none` when either key access raises. -/
def critical_key (d : List (String × DictVal)) : Option (WithTop ℚ) :=
  match dict_int d "quantity", dict_int d "min_quantity" with
  | some q, some m =>
      some (if 0 < m then (((q : ℚ) / (m : ℚ) : ℚ) : WithTop ℚ) else ⊤)
  | _, _ => none

/-- dashboard.render_stock_alerts:
`critical_items = sorted(alerts, key=...)[:5]` — `none` when any key lookup
during sorting raises `KeyError`. -/
def critical_items (alerts : List (List (String × DictVal))) :
    Option (List (List (String × DictVal))) :=
  if alerts.all (fun a => (critical_key a).isSome) then
    some ((List.insertionSort
      (fun a b => (critical_key a).getD ⊤ ≤ (critical_key b).getD ⊤) alerts).take 5)
  else none

/-! ### Concrete records used by witnesses and counterexamples -/

/-- The spec's worked example: a purchase of 20 units at price 10. -/
def demo_purchase : Transaction :=
  { item_id := "A", transaction_type := "purchase", quantity := 20, unit_price := 10 }

/-- The spec's worked example: a sale of 5 units at price 12. -/
def demo_sale5 : Transaction :=
  { item_id := "A", transaction_type := "sale", quantity := 5, unit_price := 12 }

/-- An item with 15 on hand (the spec's worked example). -/
def demo_item : Item :=
  { id := "A", name := "Widget", quantity := 15, min_quantity := 0,
    unit_cost := 7, last_ordered_at := "" }

/-- An item with only 3 on hand, target of the overdraw example. -/
def demo_item3 : Item :=
  { id := "B", name := "Gadget", quantity := 3, min_quantity := 0,
    unit_cost := 2, last_ordered_at := "" }

/-- A sale of 5 units against item `B` (which has only 3 on hand). -/
def demo_overdraw : Transaction :=
  { item_id := "B", transaction_type := "sale", quantity := 5, unit_price := 12 }

/-- A write-off of 3 units against item `A`. -/
def demo_write_off : Transaction :=
  { item_id := "A", transaction_type := "write_off", quantity := 3, unit_price := 0 }

/-- An adjustment transaction storing quantity 3 against item `A`. -/
def demo_adjustment : Transaction :=
  { item_id := "A", transaction_type := "adjustment", quantity := 3, unit_price := 0 }

/-- A transfer-in of 3 units against item `A`. -/
def demo_transfer_in : Transaction :=
  { item_id := "A", transaction_type := "transfer_in", quantity := 3, unit_price := 0 }

/-- A store holding the two demo items. -/
def demo_db : DB :=
  { items := [demo_item, demo_item3], transactions := [] }

/-- A low-stock item: 2 on hand against a minimum of 5 (the spec's alert
example). -/
def demo_low : Item :=
  { id := "L", name := "Bolt", quantity := 2, min_quantity := 5,
    unit_cost := 1, last_ordered_at := "2024-01-01" }

/-- The store after the demo purchase succeeds on `demo_db`. -/
def demo_db_after_purchase : DB :=
  { items := update_item_quantity demo_db.items "A" 35,
    transactions := [demo_purchase] }

/-- The store after the demo adjustment succeeds on `demo_db`. -/
def demo_db_after_adjustment : DB :=
  { items := update_item_quantity demo_db.items "A" 18,
    transactions := [demo_adjustment] }

/-- The quantity the backward reconstruction pass removes per transaction
(so that `backward_step b t = b - back_delta t`): `+quantity` for purchase and
adjustment, `-quantity` for sale, and `0` for the types the backward loop does
not touch. -/
def back_delta (t : Transaction) : Int :=
  if t.transaction_type = "purchase" then t.quantity
  else if t.transaction_type = "sale" then -t.quantity
  else if t.transaction_type = "adjustment" then t.quantity
  else 0

/-! ## Theorems -/

/-- A non-nil list does not report `isEmpty`. -/
theorem isEmpty_ne_true_of_ne_nil {α : Type} {l : List α} (h : l ≠ []) :
    l.isEmpty ≠ true :=
  fun hemp => h (List.isEmpty_iff.mp hemp)

/-- A left fold accumulating `x + f t` computes the sum of the mapped list. -/
theorem foldl_add_sum {α M : Type} [AddCommMonoid M] (f : α → M) :
    ∀ (l : List α) (b : M), l.foldl (fun x t => x + f t) b = b + (l.map f).sum := by
  intro l
  induction l with
  | nil => simp
  | cons t ts ih => intro b; simp [ih, add_assoc]

/-- The purchase-accumulating fold of the weighted-average-cost loop computes
the purchase sums, for any starting accumulator. -/
theorem purchase_foldl_eq (transactions : List Transaction) (c q : ℚ) :
    transactions.foldl
      (fun (a : ℚ × ℚ) t =>
        if t.transaction_type = "purchase" then
          (a.1 + (t.quantity : ℚ) * t.unit_price, a.2 + (t.quantity : ℚ))
        else a)
      (c, q) = (c + purchase_cost transactions, q + purchase_qty transactions) := by
  induction transactions generalizing c q with
  | nil => simp [purchase_cost, purchase_qty]
  | cons t ts ih =>
    by_cases h : t.transaction_type = "purchase" <;>
      simp [purchase_cost, purchase_qty, h, List.foldl_cons, ih,
        List.filter_cons, add_assoc]

/-- Closed form of `calculate_weighted_average_cost`. -/
theorem calculate_weighted_average_cost_eq (transactions : List Transaction) :
    calculate_weighted_average_cost transactions =
      if 0 < purchase_qty transactions then
        purchase_cost transactions / purchase_qty transactions
      else 0 := by
  unfold calculate_weighted_average_cost
  rw [purchase_foldl_eq]
  simp

/-- C2: `calculate_weighted_average_cost` uses only purchase transactions:
with no purchase rows (in particular on the empty list) it returns exactly 0,
and when the summed purchase quantity is positive it returns exactly
`Σ(quantity·unit_price) / Σ quantity` over the purchases.  It is a total
function on `ℚ` (never raises, never NaN). -/
theorem weighted_average_cost_spec (transactions : List Transaction) :
    (transactions.filter (fun t => t.transaction_type = "purchase") = [] →
      calculate_weighted_average_cost transactions = 0) ∧
    (0 < purchase_qty transactions →
      calculate_weighted_average_cost transactions =
        purchase_cost transactions / purchase_qty transactions) := by
  constructor
  · intro h
    rw [calculate_weighted_average_cost_eq]
    simp [purchase_qty, h]
  · intro h
    rw [calculate_weighted_average_cost_eq, if_pos h]

/-- Witness for C2 at the spec's worked example: one purchase (20 @ 10) and
one sale (5 @ 12) give weighted average cost 200/20 = 10. -/
theorem weighted_average_cost_spec_witness :
    0 < purchase_qty [demo_purchase, demo_sale5] ∧
    calculate_weighted_average_cost [demo_purchase, demo_sale5] =
      purchase_cost [demo_purchase, demo_sale5] /
        purchase_qty [demo_purchase, demo_sale5] :=
  ⟨by simp [purchase_qty, demo_purchase, demo_sale5],
   (weighted_average_cost_spec [demo_purchase, demo_sale5]).2
     (by simp [purchase_qty, demo_purchase, demo_sale5])⟩

/-- Success characterization of `create_transaction`: an `ok` result means the
item was found, the new quantity is non-negative, the returned record is the
input record, and the store holds the appended ledger entry plus the patched
item row. -/
theorem create_transaction_ok_items {db : DB} {td : Transaction} {db' : DB}
    {tr : Transaction} (h : create_transaction db td = .ok (db', tr)) :
    ∃ item, db.items.find? (fun i => i.id = td.item_id) = some item ∧
      tr = td ∧
      0 ≤ item.quantity + quantity_change_of td.transaction_type td.quantity ∧
      db' = { items := update_item_quantity db.items td.item_id
                (item.quantity + quantity_change_of td.transaction_type td.quantity),
              transactions := db.transactions ++ [td] } := by
  unfold create_transaction at h
  cases hf : db.items.find? (fun i => i.id = td.item_id) with
  | none => rw [hf] at h; exact absurd h (by simp)
  | some item =>
    rw [hf] at h
    simp only at h
    split_ifs at h with hq
    all_goals first
      | exact Except.noConfusion h
      | (simp only [Except.ok.injEq, Prod.mk.injEq] at h
         exact ⟨item, rfl, h.2.symm, le_of_not_lt hq, h.1.symm⟩)

/-- `apply_step` preserves non-negativity of every stored quantity. -/
theorem apply_step_nonneg (db : DB) (td : Transaction)
    (h : ∀ i ∈ db.items, 0 ≤ i.quantity) :
    ∀ i ∈ (apply_step db td).items, 0 ≤ i.quantity := by
  cases hf : create_transaction db td with
  | error e => simpa [apply_step, hf] using h
  | ok p =>
    obtain ⟨db', tr⟩ := p
    obtain ⟨item, _, _, hge, hdb⟩ := create_transaction_ok_items hf
    intro i hi
    simp only [apply_step, hf] at hi
    subst hdb
    simp only [update_item_quantity, List.mem_map] at hi
    obtain ⟨j, hj, rfl⟩ := hi
    by_cases hid : j.id = td.item_id
    · simpa [hid] using hge
    · simpa [hid] using h j hj

/-- Every store reachable through a sequence of `create_transaction` calls
(each either applied or raising and leaving the store as it was) keeps all
quantities non-negative. -/
theorem foldl_apply_step_nonneg (tds : List Transaction) (db : DB)
    (h : ∀ i ∈ db.items, 0 ≤ i.quantity) :
    ∀ i ∈ (tds.foldl apply_step db).items, 0 ≤ i.quantity := by
  induction tds generalizing db with
  | nil => simpa using h
  | cons td tds ih => exact ih _ (apply_step_nonneg db td h)

/-- C1: when the signed quantity change would drive the stored quantity of the
resolved item negative, `create_transaction` raises `InsufficientStockError`,
persists nothing (the caller-visible store is unchanged: no transaction
appended, item quantity intact), and consequently no reachable sequence of
calls ever produces a negative stored quantity. -/
theorem create_transaction_no_overdraw (db : DB) (td : Transaction) (item : Item)
    (hfind : db.items.find? (fun i => i.id = td.item_id) = some item)
    (hneg : item.quantity + quantity_change_of td.transaction_type td.quantity < 0)
    (hnn : ∀ i ∈ db.items, 0 ≤ i.quantity) :
    (create_transaction db td = .error .insufficientStockError ∧
      apply_step db td = db) ∧
    ∀ tds : List Transaction, ∀ i ∈ (tds.foldl apply_step db).items, 0 ≤ i.quantity := by
  have herr : create_transaction db td = .error .insufficientStockError := by
    unfold create_transaction
    rw [hfind]
    exact if_pos hneg
  refine ⟨⟨herr, ?_⟩, fun tds => foldl_apply_step_nonneg tds db hnn⟩
  unfold apply_step
  rw [herr]

/-- Witness for C1 at the spec's example: selling 5 from an item holding 3
raises `InsufficientStockError` and leaves the store untouched. -/
theorem create_transaction_no_overdraw_witness :
    create_transaction demo_db demo_overdraw = .error .insufficientStockError ∧
    apply_step demo_db demo_overdraw = demo_db :=
  (create_transaction_no_overdraw demo_db demo_overdraw demo_item3
    (by rfl) (by decide) (by decide)).1

/-- C3 counterexample: the claim says the delta for `write_off` is
`-quantity`, but `create_transaction` negates only for sale/transfer_out/loss:
a write-off of 3 against item `A` (holding 15) stores 18, the delta is `+3`,
not `-3`. -/
theorem quantity_change_write_off_positive :
    quantity_change_of "write_off" 3 = 3 ∧
    (apply_step demo_db demo_write_off).items.map Item.quantity = [18, 3] ∧
    quantity_change_of "write_off" 3 ≠ -3 := by decide

/-- C3 amended: on a successful `create_transaction`, the stored delta is
`+quantity` for purchase, transfer_in, return, credit_note, write_off,
debit_note and adjustment, and `-quantity` only for sale, transfer_out and
loss. -/
theorem create_transaction_signed_delta (db : DB) (td : Transaction) (item : Item)
    (db' : DB) (tr : Transaction)
    (hfind : db.items.find? (fun i => i.id = td.item_id) = some item)
    (hok : create_transaction db td = .ok (db', tr)) :
    (td.transaction_type ∈ ["purchase", "transfer_in", "return", "credit_note",
        "write_off", "debit_note", "adjustment"] →
      db'.items = update_item_quantity db.items td.item_id
        (item.quantity + td.quantity)) ∧
    (td.transaction_type ∈ ["sale", "transfer_out", "loss"] →
      db'.items = update_item_quantity db.items td.item_id
        (item.quantity - td.quantity)) := by
  obtain ⟨item', hfind', _, _, hdb⟩ := create_transaction_ok_items hok
  rw [hfind] at hfind'
  injection hfind' with he
  subst he
  subst hdb
  constructor
  · intro hmem
    have hval : quantity_change_of td.transaction_type td.quantity = td.quantity := by
      simp only [List.mem_cons, List.not_mem_nil, or_false] at hmem
      rcases hmem with h | h | h | h | h | h | h <;> simp [quantity_change_of, h]
    rw [hval]
  · intro hmem
    have hval : quantity_change_of td.transaction_type td.quantity = -td.quantity := by
      unfold quantity_change_of
      rw [if_pos hmem]
    rw [hval, sub_eq_add_neg]

/-- Witness for C3 amended at the demo purchase: a purchase of 20 against item
`A` (holding 15) stores 15 + 20. -/
theorem create_transaction_signed_delta_witness :
    demo_db_after_purchase.items =
      update_item_quantity demo_db.items demo_purchase.item_id
        (demo_item.quantity + demo_purchase.quantity) :=
  (create_transaction_signed_delta demo_db demo_purchase demo_item
      demo_db_after_purchase demo_purchase rfl rfl).1 (by decide)

/-- C4 counterexample: the claim says an adjustment storing quantity 3 sets
the item's quantity to 3; `create_transaction` instead adds it: item `A`
(holding 15) ends at 18, not 3. -/
theorem create_transaction_adjustment_not_set :
    (apply_step demo_db demo_adjustment).items.map Item.quantity = [18, 3] ∧
    (18 : Int) ≠ 3 := by decide

/-- C4 amended: `create_transaction` treats the quantity of an `adjustment`
transaction as an additive delta (`new = old + quantity`), not as the absolute
resulting quantity; the direct-set reading exists only in the ledger
reconstruction of main.py (export_data_to_csv / the backward pass). -/
theorem create_transaction_adjustment_additive (db : DB) (td : Transaction)
    (item : Item) (db' : DB) (tr : Transaction)
    (hfind : db.items.find? (fun i => i.id = td.item_id) = some item)
    (htype : td.transaction_type = "adjustment")
    (hok : create_transaction db td = .ok (db', tr)) :
    db'.items = update_item_quantity db.items td.item_id
      (item.quantity + td.quantity) := by
  obtain ⟨item', hfind', _, _, hdb⟩ := create_transaction_ok_items hok
  rw [hfind] at hfind'
  injection hfind' with he
  subst he
  subst hdb
  have hval : quantity_change_of td.transaction_type td.quantity = td.quantity := by
    simp [quantity_change_of, htype]
  rw [hval]

/-- Witness for C4 amended at the demo adjustment: adjustment of 3 against
item `A` (holding 15) stores 15 + 3 = 18. -/
theorem create_transaction_adjustment_additive_witness :
    demo_db_after_adjustment.items =
      update_item_quantity demo_db.items demo_adjustment.item_id
        (demo_item.quantity + demo_adjustment.quantity) :=
  create_transaction_adjustment_additive demo_db demo_adjustment demo_item
    demo_db_after_adjustment demo_adjustment rfl rfl rfl

/-- `backward_step` subtracts exactly `back_delta`. -/
theorem backward_step_eq (b : Int) (t : Transaction) :
    backward_step b t = b - back_delta t := by
  unfold backward_step back_delta
  split_ifs <;> omega

/-- The backward pass reconstructs
`initial = current - Σ back_delta` over the history. -/
theorem initial_balance_eq (item_quantity : Int) (item_trans : List Transaction) :
    initial_balance item_quantity item_trans =
      item_quantity - (item_trans.map back_delta).sum := by
  unfold initial_balance
  have key : ∀ (l : List Transaction) (b : Int),
      l.foldl backward_step b = b - (l.map back_delta).sum := by
    intro l
    induction l with
    | nil => simp
    | cons t l ih => intro b; simp [backward_step_eq, ih, sub_sub]
  rw [key]
  rw [List.map_reverse, List.sum_reverse]

/-- Pointwise bookkeeping: the forward deltas minus the backward deltas leave
exactly the quantities of the transaction types the backward pass ignores. -/
theorem forward_minus_back (item_trans : List Transaction) :
    (item_trans.map forward_change).sum - (item_trans.map back_delta).sum =
      ((item_trans.filter (fun t =>
          t.transaction_type ∉ ["purchase", "sale", "adjustment"])).map
        Transaction.quantity).sum := by
  induction item_trans with
  | nil => simp
  | cons t ts ih =>
    rw [List.map_cons, List.map_cons, List.sum_cons, List.sum_cons,
      List.filter_cons]
    by_cases hin : t.transaction_type ∈ ["purchase", "sale", "adjustment"]
    · have hc : (decide (t.transaction_type ∉ ["purchase", "sale", "adjustment"]))
          = false := by simp [hin]
      rw [hc, if_neg (by simp)]
      have hfb : forward_change t = back_delta t := by
        simp only [List.mem_cons, List.not_mem_nil, or_false] at hin
        rcases hin with h | h | h <;> simp [forward_change, back_delta, h]
      omega
    · have hc : (decide (t.transaction_type ∉ ["purchase", "sale", "adjustment"]))
          = true := by simpa using hin
      rw [hc, if_pos rfl, List.map_cons, List.sum_cons]
      obtain ⟨hp, hs, ha⟩ : ¬t.transaction_type = "purchase" ∧
          ¬t.transaction_type = "sale" ∧ ¬t.transaction_type = "adjustment" := by
        simpa [not_or] using hin
      have hf : forward_change t = t.quantity := by simp [forward_change, hs]
      have hb : back_delta t = 0 := by simp [back_delta, hp, hs, ha]
      omega

/-- C5 counterexample: a history consisting of one `transfer_in` of 3 on an
item currently holding 5 reconstructs a final balance of 8 ≠ 5 — the
backward-then-forward round trip is not lossless as claimed. -/
theorem running_balance_transfer_in_mismatch :
    final_running_balance 5 [demo_transfer_in] = 8 ∧ (8 : Int) ≠ 5 := by decide

/-- C5 amended: the backward-then-forward reconstruction returns the item's
current quantity plus the summed quantities of the transactions whose type is
outside {purchase, sale, adjustment} (the backward pass ignores them while the
forward pass adds them); the round trip is lossless exactly when that sum is
zero, in particular on histories of only purchase/sale/adjustment rows. -/
theorem final_running_balance_eq (item_quantity : Int)
    (item_trans : List Transaction) :
    final_running_balance item_quantity item_trans =
      item_quantity +
        ((item_trans.filter (fun t =>
            t.transaction_type ∉ ["purchase", "sale", "adjustment"])).map
          Transaction.quantity).sum := by
  unfold final_running_balance
  rw [foldl_add_sum forward_change, initial_balance_eq]
  have h := forward_minus_back item_trans
  omega

/-- C6: the analytics total value is the sum of per-item contributions; an
item with at least one purchase transaction (quantities being positive, per
the data model) contributes `quantity × weightedAverageCost(its transactions)`
and an item with no transactions at all contributes `quantity × unit_cost`. -/
theorem total_value_contributions (items : List Item)
    (transactions : List Transaction)
    (hpos : ∀ t ∈ transactions, 0 < t.quantity) :
    Analytics.calculate_total_value items transactions =
      (items.map (Analytics.item_value transactions)).sum ∧
    (∀ item : Item,
      (∃ t ∈ transactions, t.item_id = item.id ∧ t.transaction_type = "purchase") →
      Analytics.item_value transactions item =
        (item.quantity : ℚ) *
          calculate_weighted_average_cost
            (transactions.filter (fun t => t.item_id = item.id))) ∧
    (∀ item : Item, (∀ t ∈ transactions, t.item_id ≠ item.id) →
      Analytics.item_value transactions item =
        (item.quantity : ℚ) * item.unit_cost) := by
  refine ⟨?_, ?_, ?_⟩
  · unfold Analytics.calculate_total_value
    rw [foldl_add_sum (Analytics.item_value transactions), zero_add]
  · rintro item ⟨t, ht, hid, htype⟩
    unfold Analytics.item_value
    have hmem : t ∈ transactions.filter (fun t => t.item_id = item.id) :=
      List.mem_filter.mpr ⟨ht, by simp [hid]⟩
    have hne : (transactions.filter (fun t => t.item_id = item.id)).isEmpty ≠ true :=
      isEmpty_ne_true_of_ne_nil (List.ne_nil_of_mem hmem)
    rw [if_neg hne, purchase_foldl_eq]
    simp only [zero_add]
    have hq : 0 < purchase_qty (transactions.filter (fun t => t.item_id = item.id)) := by
      unfold purchase_qty
      apply List.sum_pos
      · intro x hx
        simp only [List.mem_map] at hx
        obtain ⟨u, hu, rfl⟩ := hx
        have hu' : u ∈ transactions := (List.mem_filter.mp (List.mem_filter.mp hu).1).1
        exact_mod_cast hpos u hu'
      · exact List.ne_nil_of_mem
          (List.mem_map_of_mem _ (List.mem_filter.mpr ⟨hmem, by simp [htype]⟩))
    rw [if_pos hq, calculate_weighted_average_cost_eq, if_pos hq]
  · intro item h
    have hnil : transactions.filter (fun t => t.item_id = item.id) = [] :=
      List.filter_eq_nil_iff.mpr (fun a ha => by simp [h a ha])
    unfold Analytics.item_value
    rw [hnil]
    simp

/-- Witness for C6 at the worked example: item `A` (15 on hand) with one
purchase (20 @ 10) and one sale is valued at `15 × WAC` of its transactions. -/
theorem total_value_contributions_witness :
    Analytics.item_value [demo_purchase, demo_sale5] demo_item =
      (demo_item.quantity : ℚ) *
        calculate_weighted_average_cost
          (([demo_purchase, demo_sale5]).filter
            (fun t => t.item_id = demo_item.id)) :=
  (total_value_contributions [demo_item] [demo_purchase, demo_sale5]
      (by decide)).2.1 demo_item ⟨demo_purchase, by simp, rfl, rfl⟩

/-- Purchase-cost sums are invariant under permutation of the ledger. -/
theorem purchase_cost_perm {ts ts' : List Transaction} (h : ts.Perm ts') :
    purchase_cost ts = purchase_cost ts' :=
  ((h.filter _).map _).sum_eq

/-- Purchase-quantity sums are invariant under permutation of the ledger. -/
theorem purchase_qty_perm {ts ts' : List Transaction} (h : ts.Perm ts') :
    purchase_qty ts = purchase_qty ts' :=
  ((h.filter _).map _).sum_eq

/-- The weighted average cost is invariant under permutation of the ledger. -/
theorem weighted_average_cost_perm {ts ts' : List Transaction} (h : ts.Perm ts') :
    calculate_weighted_average_cost ts = calculate_weighted_average_cost ts' := by
  rw [calculate_weighted_average_cost_eq, calculate_weighted_average_cost_eq,
    purchase_cost_perm h, purchase_qty_perm h]

/-- The analytics per-item value is invariant under permutation of the ledger. -/
theorem analytics_item_value_perm {ts ts' : List Transaction} (h : ts.Perm ts')
    (item : Item) :
    Analytics.item_value ts item = Analytics.item_value ts' item := by
  unfold Analytics.item_value
  have hf : (ts.filter (fun t => t.item_id = item.id)).Perm
      (ts'.filter (fun t => t.item_id = item.id)) := h.filter _
  by_cases he : ts.filter (fun t => t.item_id = item.id) = []
  · have he' : ts'.filter (fun t => t.item_id = item.id) = [] :=
      ((he ▸ hf).symm).eq_nil
    rw [he, he']
  · have he' : ts'.filter (fun t => t.item_id = item.id) ≠ [] := by
      intro hh
      exact he (hh ▸ hf).eq_nil
    rw [if_neg (isEmpty_ne_true_of_ne_nil he),
      if_neg (isEmpty_ne_true_of_ne_nil he'),
      purchase_foldl_eq, purchase_foldl_eq,
      purchase_cost_perm hf, purchase_qty_perm hf]

/-- The helpers per-item unit cost is invariant under permutation of the
ledger. -/
theorem helpers_item_unit_cost_perm {ts ts' : List Transaction} (h : ts.Perm ts')
    (item : Item) :
    Helpers.item_unit_cost ts item = Helpers.item_unit_cost ts' item := by
  unfold Helpers.item_unit_cost
  have hf : (ts.filter (fun t => t.item_id = item.id)).Perm
      (ts'.filter (fun t => t.item_id = item.id)) := h.filter _
  by_cases he : ts = []
  · have he' : ts' = [] := ((he ▸ h).symm).eq_nil
    rw [he, he']
  · have he' : ts' ≠ [] := fun hh => he (hh ▸ h).eq_nil
    rw [if_neg (isEmpty_ne_true_of_ne_nil he),
      if_neg (isEmpty_ne_true_of_ne_nil he')]
    by_cases hfe : ts.filter (fun t => t.item_id = item.id) = []
    · have hfe' : ts'.filter (fun t => t.item_id = item.id) = [] :=
        ((hfe ▸ hf).symm).eq_nil
      rw [hfe, hfe']
    · have hfe' : ts'.filter (fun t => t.item_id = item.id) ≠ [] := by
        intro hh
        exact hfe (hh ▸ hf).eq_nil
      rw [if_neg (isEmpty_ne_true_of_ne_nil hfe),
        if_neg (isEmpty_ne_true_of_ne_nil hfe'),
        weighted_average_cost_perm hf]

/-- C7: both implementations of the total-value computation return the same
result on any permutation of the transaction list (pure order-independent
aggregation under exact rational arithmetic). -/
theorem total_value_perm_invariant (items : List Item)
    (ts ts' : List Transaction) (h : ts.Perm ts') :
    Analytics.calculate_total_value items ts =
      Analytics.calculate_total_value items ts' ∧
    Helpers.calculate_total_value items ts =
      Helpers.calculate_total_value items ts' := by
  constructor
  · unfold Analytics.calculate_total_value
    rw [foldl_add_sum (Analytics.item_value ts),
      foldl_add_sum (Analytics.item_value ts'),
      funext (analytics_item_value_perm h)]
  · unfold Helpers.calculate_total_value
    rw [foldl_add_sum (fun item : Item =>
        (item.quantity : ℚ) * Helpers.item_unit_cost ts item),
      foldl_add_sum (fun item : Item =>
        (item.quantity : ℚ) * Helpers.item_unit_cost ts' item)]
    have : (fun item : Item => (item.quantity : ℚ) * Helpers.item_unit_cost ts item)
        = fun item : Item => (item.quantity : ℚ) * Helpers.item_unit_cost ts' item :=
      funext (fun item => by rw [helpers_item_unit_cost_perm h])
    rw [this]

/-- Witness for C7: swapping the two demo transactions leaves both totals
unchanged. -/
theorem total_value_perm_invariant_witness :
    Analytics.calculate_total_value [demo_item] [demo_purchase, demo_sale5] =
      Analytics.calculate_total_value [demo_item] [demo_sale5, demo_purchase] ∧
    Helpers.calculate_total_value [demo_item] [demo_purchase, demo_sale5] =
      Helpers.calculate_total_value [demo_item] [demo_sale5, demo_purchase] :=
  total_value_perm_invariant [demo_item] _ _
    (List.Perm.swap demo_sale5 demo_purchase [])

/-- Inserting into a revenue-descending list keeps the filter by an exact
revenue value stable: the inserted entry lands before the kept tail exactly
when it carries that revenue, and never jumps over an equal-revenue entry
(elements skipped by `orderedInsert` have strictly larger revenue). -/
theorem filter_rev_orderedInsert (r : ℚ) (a : SalesEntry) (l : List SalesEntry) :
    (List.orderedInsert revenue_ge a l).filter (fun e => e.revenue = r) =
      if a.revenue = r then a :: l.filter (fun e => e.revenue = r)
      else l.filter (fun e => e.revenue = r) := by
  induction l with
  | nil =>
    by_cases har : a.revenue = r <;>
      simp [List.orderedInsert, List.filter, har]
  | cons b l ih =>
    by_cases hab : revenue_ge a b
    · rw [List.orderedInsert_of_le revenue_ge l hab]
      by_cases har : a.revenue = r <;> simp [List.filter_cons, har]
    · have hstep : List.orderedInsert revenue_ge a (b :: l)
          = b :: List.orderedInsert revenue_ge a l := by
        simp [List.orderedInsert, hab]
      rw [hstep]
      by_cases har : a.revenue = r
      · have hbne : ¬(b.revenue = r) := by
          intro hbr
          exact hab (le_of_eq (by rw [har, hbr]))
        simp [List.filter_cons, hbne, ih, har]
      · simp [List.filter_cons, ih, har]

/-- The insertion sort by descending revenue is stable: filtering the sorted
list down to one revenue value returns those entries in their original
order. -/
theorem filter_rev_insertionSort (r : ℚ) (l : List SalesEntry) :
    (List.insertionSort revenue_ge l).filter (fun e => e.revenue = r) =
      l.filter (fun e => e.revenue = r) := by
  induction l with
  | nil => rfl
  | cons a l ih =>
    rw [List.insertionSort, filter_rev_orderedInsert, ih, List.filter_cons]
    by_cases har : a.revenue = r <;> simp [har]

/-- C8: `get_top_selling_items` returns at most 5 entries, sorted descending
by revenue, and entries of equal revenue keep the encounter order of the
pre-sort result list (join of items having sales, in items order). -/
theorem top_selling_items_spec (transactions : List Transaction)
    (items : List Item) :
    (get_top_selling_items transactions items).length ≤ 5 ∧
    (get_top_selling_items transactions items).Pairwise revenue_ge ∧
    ∀ r : ℚ,
      ((get_top_selling_items transactions items).filter
          (fun e => e.revenue = r)).Sublist
        ((top_selling_pre transactions items).filter (fun e => e.revenue = r)) := by
  refine ⟨?_, ?_, ?_⟩
  · exact List.length_take_le 5 _
  · exact (List.sorted_insertionSort revenue_ge
      (top_selling_pre transactions items)).sublist
      (List.take_sublist 5 _)
  · intro r
    have h1 := (List.take_sublist 5
        (List.insertionSort revenue_ge (top_selling_pre transactions items))).filter
      (fun e => decide (e.revenue = r))
    rwa [filter_rev_insertionSort] at h1

/-- C9 evaluation at the failing input (the spec's own alert example,
`quantity 2, min_quantity 5`): `get_stock_alerts` does produce the inclusive
low-stock alert with `shortage = 3`, but emits the numeric value under the key
`current_quantity`, while the dashboard's sort key reads `x['quantity']` — so
the key lookup fails (`KeyError`) and the ratio-sorted critical list is never
produced. -/
theorem stock_alerts_key_mismatch :
    get_stock_alerts [demo_low] = [alert_entry demo_low] ∧
    dict_int (alert_entry demo_low) "shortage" = some 3 ∧
    dict_int (alert_entry demo_low) "current_quantity" = some 2 ∧
    dict_int (alert_entry demo_low) "quantity" = none ∧
    critical_items (get_stock_alerts [demo_low]) = none := by decide

/-- C10 counterexample: for an item holding 15 at declared unit cost 7 whose
only ledger entry is a (non-purchase) sale, the analytics implementation
values the inventory at 15 × 7 = 105 while the helpers implementation values
it at 15 × WAC = 15 × 0 = 0. -/
theorem total_value_implementations_differ :
    Analytics.calculate_total_value [demo_item] [demo_sale5] = 105 ∧
    Helpers.calculate_total_value [demo_item] [demo_sale5] = 0 ∧
    Analytics.calculate_total_value [demo_item] [demo_sale5] ≠
      Helpers.calculate_total_value [demo_item] [demo_sale5] := by
  refine ⟨?_, ?_, ?_⟩ <;>
    simp [Analytics.calculate_total_value, Analytics.item_value,
      Helpers.calculate_total_value, Helpers.item_unit_cost,
      calculate_weighted_average_cost, demo_item, demo_sale5]
  all_goals norm_num

/-- C10 amended: the two implementations agree exactly on inputs where every
item's matching transactions are either absent or include purchases of
positive total quantity; they diverge on items whose matching transactions
contain no purchase (helpers values them at quantity × 0, analytics falls back
to quantity × unit_cost). -/
theorem total_value_implementations_agree (items : List Item)
    (transactions : List Transaction)
    (h : ∀ item ∈ items,
      transactions.filter (fun t => t.item_id = item.id) = [] ∨
      0 < purchase_qty (transactions.filter (fun t => t.item_id = item.id))) :
    Analytics.calculate_total_value items transactions =
      Helpers.calculate_total_value items transactions := by
  unfold Analytics.calculate_total_value Helpers.calculate_total_value
  rw [foldl_add_sum (Analytics.item_value transactions),
    foldl_add_sum (fun item : Item =>
      (item.quantity : ℚ) * Helpers.item_unit_cost transactions item)]
  refine congrArg (0 + ·) (congrArg List.sum (List.map_congr_left ?_))
  intro item hitem
  rcases h item hitem with hnil | hq
  · unfold Analytics.item_value Helpers.item_unit_cost
    rw [hnil]
    by_cases hts : transactions.isEmpty <;> simp [hts, hnil]
  · have hits : transactions.filter (fun t => t.item_id = item.id) ≠ [] := by
      intro hh
      rw [hh] at hq
      simp [purchase_qty] at hq
    have hts : transactions ≠ [] := by
      intro hh
      subst hh
      simp at hits
    unfold Analytics.item_value Helpers.item_unit_cost
    rw [if_neg (isEmpty_ne_true_of_ne_nil hits),
      if_neg (isEmpty_ne_true_of_ne_nil hts),
      if_neg (isEmpty_ne_true_of_ne_nil hits),
      purchase_foldl_eq]
    simp only [zero_add]
    rw [if_pos hq, calculate_weighted_average_cost_eq, if_pos hq]

/-- Witness for C10 amended: with the purchase present, both implementations
value the demo inventory identically. -/
theorem total_value_implementations_agree_witness :
    Analytics.calculate_total_value [demo_item] [demo_purchase, demo_sale5] =
      Helpers.calculate_total_value [demo_item] [demo_purchase, demo_sale5] :=
  total_value_implementations_agree [demo_item] [demo_purchase, demo_sale5]
    (by
      intro item hitem
      simp only [List.mem_singleton] at hitem
      subst hitem
      right
      simp [purchase_qty, demo_item, demo_purchase, demo_sale5])

end Vivita
